import Mathlib

/-!
Shallow embedding of `tom_targets/models.py` (tom_base repository): the
`Target` data model, its `as_dict` projection through Django's
`model_to_dict`, `get_object_instance_for_type`, and `get_visibility`,
together with theorems settling the specification claims.

Conventions: Python floats are modelled exactly as rationals (`Rat`);
nullable model fields are `Option Rat`; timestamps are abstract minute
counts (`Int`); fallible code returns `Except`; a Python dict built by
inserting keys in a fixed iteration order is an association list in that
order.
-/

/-- A Python value as stored in a Django model field or returned by a
method: `None`, a string, a number, or an opaque datetime stamp. -/
inductive PyVal where
  | none
  | str (s : String)
  | num (q : Rat)
  | dt (stamp : Nat)
deriving DecidableEq

/-- `GLOBAL_TARGET_FIELDS` (models.py line 14). -/
def GLOBAL_TARGET_FIELDS : List String := ["identifier", "name", "designation", "type"]

/-- `SIDEREAL_FIELDS` (models.py lines 16-19). -/
def SIDEREAL_FIELDS : List String := GLOBAL_TARGET_FIELDS ++
  ["ra", "dec", "epoch", "pm_ra", "pm_dec",
   "galactic_lng", "galactic_lat", "distance", "distance_err"]

/-- `NON_SIDEREAL_FIELDS` (models.py lines 21-26). -/
def NON_SIDEREAL_FIELDS : List String := GLOBAL_TARGET_FIELDS ++
  ["mean_anomaly", "arg_of_perihelion",
   "lng_asc_node", "inclination", "mean_daily_motion", "semimajor_axis",
   "ephemeris_period", "ephemeris_period_err", "ephemeris_epoch",
   "ephemeris_epoch_err"]

/-- The `Target` Django model (models.py lines 29-62): the implicit auto
primary key `id`, the four identity fields, the auto-maintained `created`
and `modified` timestamps, and the nullable sidereal and orbital float
fields, in declaration order. -/
structure Target where
  id : Int := 0
  identifier : String := ""
  name : String := ""
  type : String := ""
  designation : String := ""
  created : PyVal := PyVal.none
  modified : PyVal := PyVal.none
  ra : Option Rat := Option.none
  dec : Option Rat := Option.none
  epoch : Option Rat := Option.none
  parallax : Option Rat := Option.none
  pm_ra : Option Rat := Option.none
  pm_dec : Option Rat := Option.none
  galactic_lng : Option Rat := Option.none
  galactic_lat : Option Rat := Option.none
  distance : Option Rat := Option.none
  distance_err : Option Rat := Option.none
  mean_anomaly : Option Rat := Option.none
  arg_of_perihelion : Option Rat := Option.none
  eccentricity : Option Rat := Option.none
  lng_asc_node : Option Rat := Option.none
  inclination : Option Rat := Option.none
  mean_daily_motion : Option Rat := Option.none
  semimajor_axis : Option Rat := Option.none
  ephemeris_period : Option Rat := Option.none
  ephemeris_period_err : Option Rat := Option.none
  ephemeris_epoch : Option Rat := Option.none
  ephemeris_epoch_err : Option Rat := Option.none
deriving DecidableEq

/-- A nullable float field's Python value: `None` when unset. -/
def optNum : Option Rat → PyVal
  | Option.none => PyVal.none
  | Option.some q => PyVal.num q

/-- Django's `Model._meta.concrete_fields` for `Target`, in declaration
order, each paired with its `editable` flag: the implicit `AutoField`
primary key `id` is not editable, and `created` / `modified` carry
`auto_now_add` / `auto_now` which force `editable=False`; every other
declared field is editable. -/
def targetModelFields : List (String × Bool) :=
  [("id", false), ("identifier", true), ("name", true), ("type", true),
   ("designation", true), ("created", false), ("modified", false),
   ("ra", true), ("dec", true), ("epoch", true), ("parallax", true),
   ("pm_ra", true), ("pm_dec", true), ("galactic_lng", true),
   ("galactic_lat", true), ("distance", true), ("distance_err", true),
   ("mean_anomaly", true), ("arg_of_perihelion", true),
   ("eccentricity", true), ("lng_asc_node", true), ("inclination", true),
   ("mean_daily_motion", true), ("semimajor_axis", true),
   ("ephemeris_period", true), ("ephemeris_period_err", true),
   ("ephemeris_epoch", true), ("ephemeris_epoch_err", true)]

/-- Django's `Field.value_from_object` for each `Target` field. -/
def Target.value_from_object (t : Target) (f : String) : PyVal :=
  if f = "id" then PyVal.num (t.id : Rat)
  else if f = "identifier" then PyVal.str t.identifier
  else if f = "name" then PyVal.str t.name
  else if f = "type" then PyVal.str t.type
  else if f = "designation" then PyVal.str t.designation
  else if f = "created" then t.created
  else if f = "modified" then t.modified
  else if f = "ra" then optNum t.ra
  else if f = "dec" then optNum t.dec
  else if f = "epoch" then optNum t.epoch
  else if f = "parallax" then optNum t.parallax
  else if f = "pm_ra" then optNum t.pm_ra
  else if f = "pm_dec" then optNum t.pm_dec
  else if f = "galactic_lng" then optNum t.galactic_lng
  else if f = "galactic_lat" then optNum t.galactic_lat
  else if f = "distance" then optNum t.distance
  else if f = "distance_err" then optNum t.distance_err
  else if f = "mean_anomaly" then optNum t.mean_anomaly
  else if f = "arg_of_perihelion" then optNum t.arg_of_perihelion
  else if f = "eccentricity" then optNum t.eccentricity
  else if f = "lng_asc_node" then optNum t.lng_asc_node
  else if f = "inclination" then optNum t.inclination
  else if f = "mean_daily_motion" then optNum t.mean_daily_motion
  else if f = "semimajor_axis" then optNum t.semimajor_axis
  else if f = "ephemeris_period" then optNum t.ephemeris_period
  else if f = "ephemeris_period_err" then optNum t.ephemeris_period_err
  else if f = "ephemeris_epoch" then optNum t.ephemeris_epoch
  else if f = "ephemeris_epoch_err" then optNum t.ephemeris_epoch_err
  else PyVal.none

/-- Modelled from Django's `django.forms.models.model_to_dict(instance,
fields=...)`, which `as_dict` calls: it walks the model's concrete fields
in declaration order, skips fields with `editable=False`, skips fields
whose name is not in `fields`, and inserts `name -> value_from_object`
into the result dict in that iteration order. -/
def model_to_dict (t : Target) (fields : List String) : List (String × PyVal) :=
  (targetModelFields.filter (fun f => f.2 && fields.contains f.1)).map
    (fun f => (f.1, t.value_from_object f.1))

/-- The field-subset selection inlined in `as_dict` (models.py lines
72-77): `SIDEREAL_FIELDS` when `self.type == self.SIDEREAL`,
`NON_SIDEREAL_FIELDS` when `self.type == self.NON_SIDEREAL`, otherwise
`GLOBAL_TARGET_FIELDS`. -/
def Target.fields_for_type (t : Target) : List String :=
  if t.type = "SIDEREAL" then SIDEREAL_FIELDS
  else if t.type = "NON_SIDEREAL" then NON_SIDEREAL_FIELDS
  else GLOBAL_TARGET_FIELDS

/-- `Target.as_dict` (models.py lines 71-79): `model_to_dict(self,
fields=fields_for_type)`. -/
def Target.as_dict (t : Target) : List (String × PyVal) :=
  model_to_dict t t.fields_for_type

/-- The editable field names of the `Target` model, in declaration order. -/
def editableTargetFieldNames : List String :=
  (targetModelFields.filter (fun f => f.2)).map (fun f => f.1)

/-- The values a bare Python name can denote where the source compares
`type == self.SIDEREAL`: a builtin function object or a string. In
Python, `==` between a builtin function and a string is `False` (both
operands return `NotImplemented` and equality falls back to identity). -/
inductive PyNameVal where
  | builtin (n : String)
  | strVal (s : String)
deriving DecidableEq

/-- Python `==` on such values: objects of different runtime kinds
compare unequal. -/
def pyEq : PyNameVal → PyNameVal → Bool
  | PyNameVal.builtin a, PyNameVal.builtin b => a == b
  | PyNameVal.strVal a, PyNameVal.strVal b => a == b
  | _, _ => false

/-- In `get_object_instance_for_type` (models.py lines 81 and 88) the
conditions read `type == self.SIDEREAL` and `type == self.NON_SIDEREAL`.
No local, parameter, or comprehension variable named `type` is in scope
in that method, so the bare name `type` resolves to the Python builtin
`type`, not to the attribute `self.type`. -/
def typeBuiltin : PyNameVal := PyNameVal.builtin "builtins.type"

/-- A skyfield object as constructed by the source: `Star(...)` or
`OsculatingElements(...)`, holding exactly the keyword arguments the
source passes (models.py lines 82-91). -/
inductive SkyObject where
  | star (ra_hours dec_degrees ra_mas_per_year dec_mas_per_year epoch parallax_mas : Option Rat)
  | osculating (eccentricity inclination longitude_of_ascending_node : Option Rat)
deriving DecidableEq

/-- `Target.get_object_instance_for_type` (models.py lines 81-93). The
method falls through with no `else` branch, so its Python result is
`None` whenever neither condition holds. -/
def Target.get_object_instance_for_type (t : Target) : Option SkyObject :=
  if pyEq typeBuiltin (PyNameVal.strVal "SIDEREAL") then
    Option.some (SkyObject.star t.ra t.dec t.pm_ra t.pm_dec t.epoch t.parallax)
  else if pyEq typeBuiltin (PyNameVal.strVal "NON_SIDEREAL") then
    Option.some (SkyObject.osculating t.eccentricity t.inclination t.lng_asc_node)
  else Option.none

/-- A site entry from `get_observing_sites()`: nullable latitude and
longitude in degrees, as fetched with `site_details.get(...)`. -/
structure SiteDetails where
  latitude : Option Rat
  longitude : Option Rat
deriving DecidableEq

/-- The external environment of `get_visibility`: the facility registry
(each registered facility with its named observing sites, in iteration
order) and the skyfield astrometric pipeline, abstracted as a function
from site coordinates, observed object, and time sample to the apparent
(altitude degrees, azimuth degrees, distance) triple produced by
`observe`/`apparent`/`altaz`. -/
structure Env where
  facilities : List (String × List (String × SiteDetails))
  altaz : Option Rat → Option Rat → SkyObject → Int → Rat × Rat × Rat

/-- The site-details records visited by the nested facility/site loops of
`get_visibility` (models.py lines 98-100), in iteration order. -/
def allSites (env : Env) : List SiteDetails :=
  (env.facilities.map (fun f => f.2.map (fun s => s.2))).flatten

/-- Python `range(0, 60, step)` as written at models.py line 107:
`ValueError` when the step is zero; for a positive step, the values
`0, step, 2*step, ...` below 60 (their count is the ceiling of 60/step);
for a negative step the range is empty, because the start 0 is not above
the stop 60. -/
def pyRange060 (step : Int) : Except String (List Int) :=
  if step = 0 then Except.error "range() arg 3 must not be zero"
  else if 0 < step then
    Except.ok ((List.range ((59 + step.toNat) / step.toNat)).map
      (fun k : Nat => (k : Int) * step))
  else Except.ok []

/-- The `time_range` list comprehension at models.py line 107:
`ts.utc([start_time + timedelta(minutes=i) for i in range(0, 60, interval)])`,
with timestamps modelled as minute counts. -/
def sampleTimes (start_time interval : Int) : Except String (List Int) :=
  match pyRange060 interval with
  | Except.error e => Except.error e
  | Except.ok is => Except.ok (is.map (fun i => start_time + i))

/-- Modelled error for `observe(None)`: when
`get_object_instance_for_type` returns `None`, skyfield's
`observe`/`apparent` chain fails with a generic library error about the
`NoneType` operand; no code path produces an "unsupported target type"
message. -/
def observeNoneMsg : String := "NoneType target cannot be observed"

/-- An item printed to the console by the body of `get_visibility`
(models.py lines 112-115): the altitude array, the azimuth array, the
distance array, then a blank line, each array covering every time sample
of the site. -/
inductive ConsoleItem where
  | angleArray (xs : List Rat)
  | distanceArray (xs : List Rat)
  | blank
deriving DecidableEq

/-- The errors `get_visibility` can propagate: the `ValueError` from a
zero `range` step, or the modelled library error from observing `None`. -/
inductive VisError where
  | valueError (msg : String)
  | typeError (msg : String)
deriving DecidableEq

/-- What a call to `get_visibility` produces when no exception escapes:
the console trace and the function's Python return value, which is
always `None` (the body ends in bare prints and `pass`). -/
structure VisResult where
  console : List ConsoleItem
  retval : PyVal
deriving DecidableEq

/-- The four print statements for one site (models.py lines 112-115). -/
def printSite (triples : List (Rat × Rat × Rat)) : List ConsoleItem :=
  [ConsoleItem.angleArray (triples.map (fun x => x.1)),
   ConsoleItem.angleArray (triples.map (fun x => x.2.1)),
   ConsoleItem.distanceArray (triples.map (fun x => x.2.2)),
   ConsoleItem.blank]

/-- The body of the inner site loop of `get_visibility` (models.py lines
101-115): build the target model (never raises; `None` under the current
comparisons), build `time_range` (raising `ValueError` when the interval
is zero), then observe — which fails on a `None` target model — and
print the altitude, azimuth, and distance arrays. -/
def processSite (env : Env) (t : Target) (start_time interval : Int)
    (sd : SiteDetails) : Except VisError (List ConsoleItem) :=
  match sampleTimes start_time interval with
  | Except.error e => Except.error (VisError.valueError e)
  | Except.ok times =>
    match t.get_object_instance_for_type with
    | Option.none => Except.error (VisError.typeError observeNoneMsg)
    | Option.some obj =>
      Except.ok (printSite (times.map
        (fun tm => env.altaz sd.latitude sd.longitude obj tm)))

/-- The facility/site loops of `get_visibility`: process each site in
iteration order, concatenating console output; the first exception
aborts the whole call. -/
def goSites (env : Env) (t : Target) (start_time interval : Int) :
    List SiteDetails → Except VisError (List ConsoleItem)
  | [] => Except.ok []
  | sd :: rest =>
    match processSite env t start_time interval sd with
    | Except.error e => Except.error e
    | Except.ok out =>
      match goSites env t start_time interval rest with
      | Except.error e => Except.error e
      | Except.ok outs => Except.ok (out ++ outs)

/-- `Target.get_visibility` (models.py lines 95-116): iterate every
registered facility and site, print per-site results, and fall through
to `pass`, returning Python `None`. The `end_time` parameter is accepted
but never read. -/
def Target.get_visibility (t : Target) (env : Env)
    (start_time end_time interval : Int) : Except VisError VisResult :=
  match goSites env t start_time interval (allSites env) with
  | Except.error e => Except.error e
  | Except.ok console => Except.ok ⟨console, PyVal.none⟩

/-- A sidereal test target, with its astrometric parameters set. -/
def tgt1 : Target :=
  { identifier := "m13", name := "M13", type := "SIDEREAL",
    designation := "NGC 6205", ra := Option.some (2504/10),
    dec := Option.some (364/10), epoch := Option.some 2000,
    parallax := Option.some (219/10), pm_ra := Option.some (-318/100),
    pm_dec := Option.some (-256/100) }

/-- A target whose type is neither `SIDEREAL` nor `NON_SIDEREAL`. -/
def tgtOther : Target := { tgt1 with type := "PLANET" }

/-- A registry with one facility holding one observing site, and a
trivial astrometric pipeline. -/
def env1 : Env :=
  { facilities := [("LCO", [("sso",
      { latitude := Option.some (316/10), longitude := Option.some (-1106/10) })])],
    altaz := fun _ _ _ _ => (0, 0, 0) }

/-- A registry with no facilities. -/
def envEmpty : Env := { facilities := [], altaz := fun _ _ _ _ => (0, 0, 0) }

lemma str_contains_iff_mem (l : List String) (a : String) :
    l.contains a = true ↔ a ∈ l := by
  constructor
  · intro h
    simpa using h
  · intro h
    simpa using h

lemma mem_model_to_dict_keys {t : Target} {fs : List String} {k : String}
    (hk : k ∈ (model_to_dict t fs).map Prod.fst) :
    ∃ p, p ∈ targetModelFields ∧ p.2 = true ∧ fs.contains p.1 = true ∧ p.1 = k := by
  rcases List.mem_map.mp hk with ⟨q, hq, hqk⟩
  rcases List.mem_map.mp hq with ⟨p, hp, hpq⟩
  rcases List.mem_filter.mp hp with ⟨hmem, hcond⟩
  have hcond' : p.2 = true ∧ fs.contains p.1 = true := by simpa using hcond
  rcases hcond' with ⟨he, hc⟩
  refine ⟨p, hmem, he, hc, ?_⟩
  rw [← hpq] at hqk
  simpa using hqk

lemma mem_model_to_dict_keys_of {t : Target} {fs : List String} {p : String × Bool}
    (hp : p ∈ targetModelFields) (he : p.2 = true) (hc : fs.contains p.1 = true) :
    p.1 ∈ (model_to_dict t fs).map Prod.fst := by
  refine List.mem_map.mpr ⟨(p.1, t.value_from_object p.1), ?_, rfl⟩
  refine List.mem_map.mpr ⟨p, ?_, rfl⟩
  exact List.mem_filter.mpr ⟨hp, by rw [he, hc]; rfl⟩

lemma fields_for_type_cases (t : Target) :
    t.fields_for_type = SIDEREAL_FIELDS ∨ t.fields_for_type = NON_SIDEREAL_FIELDS ∨
      t.fields_for_type = GLOBAL_TARGET_FIELDS := by
  unfold Target.fields_for_type
  split_ifs <;> simp

lemma editable_field_not_auto {p : String × Bool} (hp : p ∈ targetModelFields)
    (he : p.2 = true) : p.1 ≠ "id" ∧ p.1 ≠ "created" ∧ p.1 ≠ "modified" := by
  obtain ⟨a, b⟩ := p
  simp only at he
  subst he
  refine ⟨?_, ?_, ?_⟩
  · rintro rfl
    exact absurd hp (by decide)
  · rintro rfl
    exact absurd hp (by decide)
  · rintro rfl
    exact absurd hp (by decide)

/-- Claim C1 (code bug): `tgt1` is a target whose `type` field is
`SIDEREAL` with all astrometric parameters set, yet
`get_object_instance_for_type` returns `None` instead of a star model,
because both branch conditions compare the Python builtin `type` — not
`self.type` — with the type strings, and therefore never hold. -/
theorem c1_sidereal_model_is_none :
    tgt1.type = "SIDEREAL" ∧ tgt1.get_object_instance_for_type = Option.none :=
  ⟨rfl, rfl⟩

/-- Claim C2 (code bug): for a target whose type is neither `SIDEREAL`
nor `NON_SIDEREAL`, `get_visibility` over a registry with one site fails
with the generic library error from observing a `None` target model; no
"unsupported target type" error is ever reported. -/
theorem c2_unsupported_type_generic_error :
    tgtOther.type = "PLANET" ∧
    (tgtOther.type == "SIDEREAL") = false ∧
    (tgtOther.type == "NON_SIDEREAL") = false ∧
    tgtOther.get_visibility env1 0 60 10 =
      Except.error (VisError.typeError observeNoneMsg) ∧
    (observeNoneMsg == "unsupported target type") = false :=
  ⟨rfl, by decide, by decide, rfl, by decide⟩

/-- Claim C5 (code bug): the model declares `parallax` and `eccentricity`
as editable fields and the (intended) object construction consumes both,
yet `SIDEREAL_FIELDS` omits `parallax` and `NON_SIDEREAL_FIELDS` omits
`eccentricity`, so `as_dict` of a sidereal target with a set parallax
drops that field. -/
theorem c5_missing_parallax_eccentricity :
    (SIDEREAL_FIELDS.contains "parallax") = false ∧
    (NON_SIDEREAL_FIELDS.contains "eccentricity") = false ∧
    (targetModelFields.contains ("parallax", true)) = true ∧
    (targetModelFields.contains ("eccentricity", true)) = true ∧
    tgt1.type = "SIDEREAL" ∧ tgt1.parallax = Option.some (219/10) ∧
    ((tgt1.as_dict.map Prod.fst).contains "parallax") = false :=
  ⟨by decide, by decide, by decide, by decide, rfl, rfl, by decide⟩

/-- Claim C6: the field-subset selection is total and deterministic over
the three type cases, always returns a superset of the four identity
fields, coincides with the declared field list of the matching type, and
yields exactly the identity fields for any other type value. -/
theorem c6_field_subset_total (t : Target) :
    (∀ f ∈ GLOBAL_TARGET_FIELDS, f ∈ t.fields_for_type) ∧
    (t.fields_for_type = SIDEREAL_FIELDS ∨ t.fields_for_type = NON_SIDEREAL_FIELDS ∨
      t.fields_for_type = GLOBAL_TARGET_FIELDS) ∧
    (t.type = "SIDEREAL" → t.fields_for_type = SIDEREAL_FIELDS) ∧
    (t.type = "NON_SIDEREAL" → t.fields_for_type = NON_SIDEREAL_FIELDS) ∧
    (t.type ≠ "SIDEREAL" → t.type ≠ "NON_SIDEREAL" →
      t.fields_for_type = GLOBAL_TARGET_FIELDS) := by
  unfold Target.fields_for_type
  split_ifs with h1 h2
  · exact ⟨by decide, Or.inl rfl, fun _ => rfl,
      fun hn => by rw [h1] at hn; exact absurd hn (by decide),
      fun hs _ => absurd h1 hs⟩
  · exact ⟨by decide, Or.inr (Or.inl rfl), fun hs => absurd hs h1,
      fun _ => rfl, fun _ hn => absurd h2 hn⟩
  · exact ⟨by decide, Or.inr (Or.inr rfl), fun hs => absurd hs h1,
      fun hn => absurd hn h2, fun _ _ => rfl⟩

/-- Claim C6 witness: for the concrete target `tgtOther` of unknown type
`PLANET`, the selection yields exactly the identity fields. -/
theorem c6_field_subset_total_witness :
    tgtOther.fields_for_type = GLOBAL_TARGET_FIELDS :=
  (c6_field_subset_total tgtOther).2.2.2.2 (by decide) (by decide)

/-- Claim C9: `get_visibility` never reads `end_time`, so two calls that
agree on the target, registry, ephemeris, start time, and interval but
differ in `end_time` produce identical results. -/
theorem c9_end_time_irrelevant (env : Env) (t : Target)
    (start_time e1 e2 interval : Int) :
    t.get_visibility env start_time e1 interval =
      t.get_visibility env start_time e2 interval := rfl

/-- Claim C10: every key of `as_dict` belongs to the field list selected
for the target's type (one of the three declared lists), and is never
the auto-maintained `created` or `modified` timestamp nor the primary
key `id`. -/
theorem c10_as_dict_keys_safe (t : Target) (k : String)
    (hk : k ∈ (t.as_dict).map Prod.fst) :
    k ∈ t.fields_for_type ∧ k ≠ "created" ∧ k ≠ "modified" ∧ k ≠ "id" ∧
    (t.fields_for_type = SIDEREAL_FIELDS ∨ t.fields_for_type = NON_SIDEREAL_FIELDS ∨
      t.fields_for_type = GLOBAL_TARGET_FIELDS) := by
  simp only [Target.as_dict] at hk
  rcases mem_model_to_dict_keys hk with ⟨p, hp, he, hc, hpk⟩
  subst hpk
  rcases editable_field_not_auto hp he with ⟨h1, h2, h3⟩
  exact ⟨(str_contains_iff_mem _ _).mp hc, h2, h3, h1, fields_for_type_cases t⟩

/-- Claim C10 witness: the key `identifier` of `tgt1.as_dict` lies in the
selected field list. -/
theorem c10_as_dict_keys_safe_witness :
    "identifier" ∈ tgt1.fields_for_type :=
  (c10_as_dict_keys_safe tgt1 "identifier" (by decide)).1

/-- Claim C3: for every positive interval, the per-site `time_range`
expression of `get_visibility` yields exactly the samples
`start_time + k * interval` for the naturals `k` with
`k * interval < 60`, and for interval 10 there are exactly 6 samples. -/
theorem c3_sampling_window (start_time interval : Int) (hpos : 0 < interval) :
    ∃ l, sampleTimes start_time interval = Except.ok l ∧
      (∀ x : Int, x ∈ l ↔
        ∃ k : Nat, (k : Int) * interval < 60 ∧ x = start_time + (k : Int) * interval) ∧
      (interval = 10 → l.length = 6) := by
  have hne : interval ≠ 0 := by omega
  have hs : 0 < interval.toNat := by omega
  have hcast : (interval.toNat : Int) = interval := Int.toNat_of_nonneg (by omega)
  refine ⟨((List.range ((59 + interval.toNat) / interval.toNat)).map
      (fun k : Nat => (k : Int) * interval)).map (fun i => start_time + i), ?_, ?_, ?_⟩
  · simp only [sampleTimes, pyRange060, if_neg hne, if_pos hpos]
  · intro x
    constructor
    · intro hx
      rcases List.mem_map.mp hx with ⟨i, hi, hix⟩
      rcases List.mem_map.mp hi with ⟨k, hkr, hki⟩
      have hkn : k < (59 + interval.toNat) / interval.toNat := List.mem_range.mp hkr
      rw [Nat.lt_iff_add_one_le, Nat.le_div_iff_mul_le hs, add_mul, one_mul] at hkn
      have hcv : ((k * interval.toNat : Nat) : Int) = (k : Int) * interval := by
        rw [Nat.cast_mul, hcast]
      refine ⟨k, by omega, ?_⟩
      subst hix
      subst hki
      rfl
    · rintro ⟨k, hk, rfl⟩
      refine List.mem_map.mpr
        ⟨(k : Int) * interval, List.mem_map.mpr ⟨k, List.mem_range.mpr ?_, rfl⟩, rfl⟩
      rw [Nat.lt_iff_add_one_le, Nat.le_div_iff_mul_le hs, add_mul, one_mul]
      have hcv : ((k * interval.toNat : Nat) : Int) = (k : Int) * interval := by
        rw [Nat.cast_mul, hcast]
      omega
  · intro h10
    subst h10
    simp only [List.length_map, List.length_range]
    decide

/-- Claim C3 witness: for start time 0 and interval 10, the sample list
is defined, is characterized by the multiples of 10 below 60, and has
exactly 6 elements. -/
theorem c3_sampling_window_witness :
    ∃ l, sampleTimes 0 10 = Except.ok l ∧
      (∀ x : Int, x ∈ l ↔
        ∃ k : Nat, (k : Int) * 10 < 60 ∧ x = 0 + (k : Int) * 10) ∧
      ((10 : Int) = 10 → l.length = 6) :=
  c3_sampling_window 0 10 (by decide)

/-- Claim C4 (code bug): whenever `get_visibility` completes without an
exception, its return value is Python `None`; the per-sample (altitude,
azimuth, distance) triples only reach the console trace, never the
caller. -/
theorem c4_retval_is_python_none (env : Env) (t : Target)
    (start_time end_time interval : Int) (r : VisResult)
    (h : t.get_visibility env start_time end_time interval = Except.ok r) :
    r.retval = PyVal.none := by
  unfold Target.get_visibility at h
  cases hg : goSites env t start_time interval (allSites env) with
  | error e =>
      rw [hg] at h
      exact Except.noConfusion h
  | ok console =>
      rw [hg] at h
      cases h
      rfl

/-- Claim C4 witness: a completed call over the empty registry returns
the `None` value. -/
theorem c4_retval_is_python_none_witness :
    (({ console := [], retval := PyVal.none } : VisResult)).retval = PyVal.none :=
  c4_retval_is_python_none envEmpty tgt1 0 0 10
    { console := [], retval := PyVal.none } rfl

/-- Claim C7 counterexample: for the target `tgt1` and the requested
field list `GLOBAL_TARGET_FIELDS = [identifier, name, designation,
type]`, the projection's keys come out as `[identifier, name, type,
designation]` — the model's declaration order — so they are not in the
same order as the requested field list. -/
theorem c7_key_order_counterexample :
    (model_to_dict tgt1 GLOBAL_TARGET_FIELDS).map Prod.fst =
      ["identifier", "name", "type", "designation"] ∧
    (((model_to_dict tgt1 GLOBAL_TARGET_FIELDS).map Prod.fst ==
      GLOBAL_TARGET_FIELDS)) = false :=
  ⟨by decide, by decide⟩

/-- Claim C7 (amended): for every target and every requested list of
declared editable fields, the projection's keys are exactly the
requested fields with no extraneous keys and each value is the record's
current field content (None when unset) — but the keys follow the
model's field declaration order, not the requested list's order. -/
theorem c7_projection_amended (t : Target) (fs : List String)
    (h : ∀ f ∈ fs, f ∈ editableTargetFieldNames) :
    (∀ k, k ∈ (model_to_dict t fs).map Prod.fst ↔ k ∈ fs) ∧
    ((model_to_dict t fs).map Prod.fst).Sublist (targetModelFields.map Prod.fst) ∧
    (∀ p ∈ model_to_dict t fs, p.2 = t.value_from_object p.1) := by
  refine ⟨?_, ?_, ?_⟩
  · intro k
    constructor
    · intro hk
      rcases mem_model_to_dict_keys hk with ⟨p, _, _, hc, hpk⟩
      subst hpk
      exact (str_contains_iff_mem _ _).mp hc
    · intro hk
      have hed := h k hk
      simp only [editableTargetFieldNames, List.mem_map, List.mem_filter] at hed
      rcases hed with ⟨p, ⟨hp, he⟩, hpk⟩
      subst hpk
      exact mem_model_to_dict_keys_of hp he ((str_contains_iff_mem _ _).mpr hk)
  · have h1 : (model_to_dict t fs).map Prod.fst =
        (targetModelFields.filter (fun f => f.2 && fs.contains f.1)).map Prod.fst := by
      simp [model_to_dict, List.map_map]
    rw [h1]
    exact (List.filter_sublist _).map _
  · intro p hp
    rcases List.mem_map.mp hp with ⟨q, _, hqp⟩
    rw [← hqp]

/-- Claim C7 witness: for `tgt1` and the identity field list, the key
`type` appears in the projection and the keys follow the model's
declared field order. -/
theorem c7_projection_amended_witness :
    "type" ∈ (model_to_dict tgt1 GLOBAL_TARGET_FIELDS).map Prod.fst ∧
    ((model_to_dict tgt1 GLOBAL_TARGET_FIELDS).map Prod.fst).Sublist
      (targetModelFields.map Prod.fst) :=
  ⟨((c7_projection_amended tgt1 GLOBAL_TARGET_FIELDS (by decide)).1 "type").mpr
      (by decide),
   (c7_projection_amended tgt1 GLOBAL_TARGET_FIELDS (by decide)).2.1⟩

/-- Claim C8 counterexample: with no registered sites, a call with the
negative interval -10 completes without any reported failure, silently
returning Python `None` and producing no output. -/
theorem c8_silent_negative_interval :
    ((-10 : Int) < 0) ∧
    tgt1.get_visibility envEmpty 0 0 (-10) = Except.ok ⟨[], PyVal.none⟩ :=
  ⟨by decide, rfl⟩

/-- Claim C8 (amended): `get_visibility` performs no interval
validation. With no registered sites any interval silently returns
`None`; with at least one site, a zero interval raises the `ValueError`
from `range(0, 60, 0)`, and a negative interval yields an empty sample
list with no interval error — the call then fails only with the
unrelated `None`-target observation error. -/
theorem c8_interval_handling_amended (env : Env) (t : Target)
    (start_time end_time interval : Int) :
    (env.facilities = [] →
      t.get_visibility env start_time end_time interval =
        Except.ok ⟨[], PyVal.none⟩) ∧
    (∀ sd rest, allSites env = sd :: rest → interval = 0 →
      t.get_visibility env start_time end_time interval =
        Except.error (VisError.valueError "range() arg 3 must not be zero")) ∧
    (interval < 0 → pyRange060 interval = Except.ok []) ∧
    (∀ sd rest, allSites env = sd :: rest → interval < 0 →
      t.get_visibility env start_time end_time interval =
        Except.error (VisError.typeError observeNoneMsg)) := by
  refine ⟨?_, ?_, ?_, ?_⟩
  · intro hfac
    have hsites : allSites env = [] := by simp [allSites, hfac]
    unfold Target.get_visibility
    rw [hsites]
    rfl
  · intro sd rest hsites hz
    subst hz
    unfold Target.get_visibility
    rw [hsites]
    simp [goSites, processSite, sampleTimes, pyRange060]
  · intro hneg
    unfold pyRange060
    rw [if_neg (by omega : ¬interval = 0), if_neg (by omega : ¬(0 : Int) < interval)]
  · intro sd rest hsites hneg
    have hr : pyRange060 interval = Except.ok [] := by
      unfold pyRange060
      rw [if_neg (by omega : ¬interval = 0), if_neg (by omega : ¬(0 : Int) < interval)]
    unfold Target.get_visibility
    rw [hsites]
    simp [goSites, processSite, sampleTimes, hr,
      Target.get_object_instance_for_type, pyEq, typeBuiltin]

/-- Claim C8 witness: with the empty registry and interval -10, the call
returns `None` without error. -/
theorem c8_interval_handling_amended_witness :
    tgt1.get_visibility envEmpty 0 0 (-10) = Except.ok ⟨[], PyVal.none⟩ :=
  (c8_interval_handling_amended envEmpty tgt1 0 0 (-10)).1 rfl
